import Mathlib

/-!
Shallow embedding of `src/app.py`, a Flask news CRUD service backed by
PostgreSQL.  Pure data is modelled directly; the effectful parts are made
explicit:

* The `news` table is a list of rows together with the id sequence's next
  value (`DB`).  Postgres sequences are not transactional, so a rolled-back
  `INSERT` still advances `nextId`.
* A request's JSON body is `Option Jobj`: `none` models `request.json`
  being `None` (no JSON body); the handlers' `in` / `.get` calls assume a
  JSON object (Python dict), which is the fragment the routes are used with.
  Python truthiness of a dict is non-emptiness, so `not request.json` holds
  exactly when the body is `none` or the empty object.
* `get_db_connection()` returning a connection or `None` is abstracted by a
  `connOk : Bool` parameter of each handler; the retry loop itself is
  embedded separately (`get_db_connection` below) over an oracle giving the
  outcome of each `psycopg2.connect` attempt.
* Backend faults are injected by a `Fault` parameter: `some (k, msg)` makes
  the k-th backend call of the handler (`cur.execute` or `conn.commit`,
  counted from 0 in program order) raise an exception whose `str` is `msg`.
* `abort(n)` raises `werkzeug.exceptions.HTTPException`, which is a subclass
  of `Exception`; inside the handlers' `try` blocks it is therefore caught
  by `except Exception as e` and turned into a 500 response whose error
  message is `str(e)`.  Outside a `try` block it propagates to Flask, which
  renders its default HTML error page (not JSON).
-/

/-- JSON values as Python's json module represents them (None, bool, int,
str, list, dict). -/
inductive Jval where
  | jnull : Jval
  | jbool : Bool → Jval
  | jnum : Int → Jval
  | jstr : String → Jval
  | jarr : List Jval → Jval
  | jobj : List (String × Jval) → Jval

/-- A JSON object body: association list of keys to values (Python dict,
keys unique). -/
abbrev Jobj := List (String × Jval)

/-- Python `d.get(k)` / `k in d` lookup on a dict: the value of the first
matching key. -/
def jlookup (k : String) : Jobj → Option Jval
  | [] => none
  | kv :: rest => if kv.1 = k then some kv.2 else jlookup k rest

/-- A row of the `news` table.  `title` and `content` are arbitrary JSON
values: the handlers write whatever value the request carried (which can be
`null`). -/
structure Row where
  id : Nat
  title : Jval
  content : Jval

/-- The ordering `ORDER BY id` sorts by. -/
def rowLe (a b : Row) : Prop := a.id ≤ b.id

instance : DecidableRel rowLe := fun a b => Nat.decLe a.id b.id

instance : IsTotal Row rowLe := ⟨fun a b => Nat.le_total a.id b.id⟩

instance : IsTrans Row rowLe := ⟨fun _ _ _ h1 h2 => Nat.le_trans h1 h2⟩

/-- The database state: the `news` table's rows and the id sequence's next
value. -/
structure DB where
  rows : List Row
  nextId : Nat

/-- A response body: `jsonify(...)` yields an `application/json` body;
`abort` outside a handled context yields Flask's default HTML error page. -/
inductive Rbody where
  | json : Jval → Rbody
  | html : String → Rbody

/-- An HTTP response: status code and body. -/
structure Response where
  status : Nat
  body : Rbody

/-- Whether the response carries an `application/json` body. -/
def Response.isJson : Response → Bool
  | ⟨_, .json _⟩ => true
  | ⟨_, .html _⟩ => false

/-- Fault injection for one request: `some (k, msg)` makes the handler's
k-th backend call raise an exception with message `msg`; `none` means no
backend call faults. -/
abbrev Fault := Option (Nat × String)

/-- The fault, if any, fired by the handler's k-th backend call. -/
def faultsAt : Fault → Nat → Option String
  | some st, k => if st.1 = k then some st.2 else none
  | none, _ => none

/-- str(werkzeug.exceptions.NotFound()): the message of the exception
`abort(404)` raises. -/
def notFoundMessage : String :=
  "404 Not Found: The requested URL was not found on the server. If you entered the URL manually please check your spelling and try again."

/-- The description on Flask's default 400 error page (HTML, produced by
`abort(400)` with no registered error handler). -/
def badRequestHtml : String :=
  "400 Bad Request: The browser (or proxy) sent a request that this server could not understand."

/-- The `jsonify({"error": "Database connection failed"}), 500` response
every route returns when `get_db_connection()` gives `None`. -/
def connectionFailedResp : Response :=
  ⟨500, .json (.jobj [("error", .jstr "Database connection failed")])⟩

/-- The `jsonify({"error": str(e)}), 500` response of the handlers'
`except Exception` blocks. -/
def errResp (msg : String) : Response :=
  ⟨500, .json (.jobj [("error", .jstr msg)])⟩

/-- The response `abort(400)` produces outside any `try` block: Flask's
default HTML 400 page. -/
def badRequestResp : Response :=
  ⟨400, .html badRequestHtml⟩

/-- The JSON object serialising one news item. -/
def rowJson (r : Row) : Jval :=
  .jobj [("id", .jnum r.id), ("title", r.title), ("content", r.content)]

/-- Outcome of one `psycopg2.connect(...)` attempt: success, a
`psycopg2.OperationalError` (store unreachable), or an exception of any
other class (named by `otherError`). -/
inductive AttemptOutcome where
  | ok : AttemptOutcome
  | opError : AttemptOutcome
  | otherError : String → AttemptOutcome

/-- What a call of `get_db_connection()` does: return a connection, return
`None`, or let an exception escape to the caller. -/
inductive ConnOutcome where
  | conn : ConnOutcome
  | noneSig : ConnOutcome
  | raised : String → ConnOutcome

/-- The `while retries > 0` loop of `get_db_connection`: `r` is the value of
`retries`, `i` the index of the next connect attempt, `s` the number of
`time.sleep(5)` calls made so far.  Only `psycopg2.OperationalError` is
caught; any other exception escapes. -/
def connectLoop (attempt : Nat → AttemptOutcome) : Nat → Nat → Nat → ConnOutcome × Nat
  | 0, _, s => (.noneSig, s)
  | r + 1, i, s =>
    match attempt i with
    | .ok => (.conn, s)
    | .opError => connectLoop attempt r (i + 1) (s + 1)
    | .otherError n => (.raised n, s)

/-- `get_db_connection()` over an oracle of connect-attempt outcomes:
`retries = 5`, and the loop falls through to `return None`.  The second
component counts the `time.sleep(5)` calls made. -/
def get_db_connection (attempt : Nat → AttemptOutcome) : ConnOutcome × Nat :=
  connectLoop attempt 5 0 0

/-- `GET /db-health`: `connOk` is whether `get_db_connection()` returned a
connection. -/
def db_health_check (connOk : Bool) : Response :=
  if connOk then
    ⟨200, .json (.jobj [("status", .jstr "ok"),
                        ("message", .jstr "Database connection successful")])⟩
  else
    ⟨500, .json (.jobj [("status", .jstr "error"),
                        ("message", .jstr "Database connection failed")])⟩

/-- `GET /`: the static endpoint map. -/
def index : Response :=
  ⟨200, .json (.jobj [("message", .jstr "Welcome to the News API (with Postgres)!"),
    ("endpoints", .jobj [("list_all_news", .jstr "GET /news"),
      ("create_news", .jstr "POST /news"),
      ("update_news", .jstr "PUT /news/<id>"),
      ("delete_news", .jstr "DELETE /news/<id>"),
      ("db_health", .jstr "GET /db-health")])])⟩

/-- The rows as `SELECT id, title, content FROM news ORDER BY id` returns
them. -/
def sortById (rows : List Row) : List Row :=
  List.insertionSort rowLe rows

/-- `GET /news`.  One backend call: the SELECT (call 0). -/
def list_news (db : DB) (connOk : Bool) (fault : Fault) : Response × DB :=
  if !connOk then (connectionFailedResp, db)
  else
    match faultsAt fault 0 with
    | some msg => (errResp msg, db)
    | none =>
      let items := sortById db.rows
      (⟨200, .json (.jobj [("count", .jnum items.length),
                           ("items", .jarr (items.map rowJson))])⟩, db)

/-- `POST /news`.  Validation (`not request.json or 'title' not in
request.json`) happens before the connection is acquired; backend calls are
the INSERT (call 0) and the commit (call 1).  A fault after the INSERT ran
leaves the sequence advanced but the row rolled back. -/
def create_news (db : DB) (body : Option Jobj) (connOk : Bool) (fault : Fault) :
    Response × DB :=
  match body with
  | none => (badRequestResp, db)
  | some obj =>
    if obj.isEmpty then (badRequestResp, db)
    else
      match jlookup "title" obj with
      | none => (badRequestResp, db)
      | some title =>
        let content := (jlookup "content" obj).getD (.jstr "")
        if !connOk then (connectionFailedResp, db)
        else
          match faultsAt fault 0 with
          | some msg => (errResp msg, db)
          | none =>
            let new_id := db.nextId
            match faultsAt fault 1 with
            | some msg => (errResp msg, ⟨db.rows, db.nextId + 1⟩)
            | none =>
              (⟨201, .json (rowJson ⟨new_id, title, content⟩)⟩,
               ⟨db.rows ++ [⟨new_id, title, content⟩], db.nextId + 1⟩)

/-- `PUT /news/<id>`.  `if not request.json: abort(400)` rejects a missing
body and the empty object alike (an empty dict is falsy) before the
connection is acquired.  Backend calls: SELECT (0), UPDATE (1), commit (2).
The `abort(404)` for a missing row is raised inside the `try` block, so
`except Exception` catches it and the handler answers 500 with
`str(werkzeug.exceptions.NotFound())` as the error message. -/
def update_news (db : DB) (item_id : Nat) (body : Option Jobj) (connOk : Bool)
    (fault : Fault) : Response × DB :=
  match body with
  | none => (badRequestResp, db)
  | some obj =>
    if obj.isEmpty then (badRequestResp, db)
    else if !connOk then (connectionFailedResp, db)
    else
      match faultsAt fault 0 with
      | some msg => (errResp msg, db)
      | none =>
        match db.rows.find? (fun r => r.id == item_id) with
        | none => (errResp notFoundMessage, db)
        | some row =>
          let title := (jlookup "title" obj).getD row.title
          let content := (jlookup "content" obj).getD row.content
          match faultsAt fault 1 with
          | some msg => (errResp msg, db)
          | none =>
            match faultsAt fault 2 with
            | some msg => (errResp msg, db)
            | none =>
              (⟨200, .json (.jobj [("id", .jnum item_id), ("title", title),
                                   ("content", content)])⟩,
               ⟨db.rows.map (fun r =>
                  if r.id = item_id then ⟨r.id, title, content⟩ else r),
                db.nextId⟩)

/-- `DELETE /news/<id>`.  Backend calls: the DELETE with RETURNING (0) and
the commit (1).  As in `update_news`, the `abort(404)` for zero affected
rows is raised inside the `try` block and caught by `except Exception`,
yielding a 500 response. -/
def delete_news (db : DB) (item_id : Nat) (connOk : Bool) (fault : Fault) :
    Response × DB :=
  if !connOk then (connectionFailedResp, db)
  else
    match faultsAt fault 0 with
    | some msg => (errResp msg, db)
    | none =>
      if db.rows.any (fun r => r.id == item_id) then
        match faultsAt fault 1 with
        | some msg => (errResp msg, db)
        | none =>
          (⟨200, .json (.jobj [("status", .jstr "deleted"), ("id", .jnum item_id)])⟩,
           ⟨db.rows.filter (fun r => !(r.id == item_id)), db.nextId⟩)
      else
        (errResp notFoundMessage, db)

/-! ## Theorems -/

/-- C1: a PUT with a non-empty JSON body whose id matches no stored item does
leave the collection unchanged, but it answers 500, not 404: the `abort(404)`
is raised inside the `try` block and caught by `except Exception`, so the
handler returns `jsonify error=str(NotFound()), 500`.  Evaluated at the
failing input: PUT /news/7 with body containing title "x" on an empty store. -/
theorem C1_put_unknown_id_evaluation :
    (update_news ⟨[], 1⟩ 7 (some [("title", .jstr "x")]) true none).1.status = 500 ∧
    (update_news ⟨[], 1⟩ 7 (some [("title", .jstr "x")]) true none).1.body
      = .json (.jobj [("error", .jstr notFoundMessage)]) ∧
    (update_news ⟨[], 1⟩ 7 (some [("title", .jstr "x")]) true none).2.rows = [] :=
  ⟨rfl, rfl, rfl⟩

/-- C2: the first DELETE of an existing id answers 200 with status "deleted"
and removes the item, but the second DELETE of the same id answers 500, not
404: the `abort(404)` for zero affected rows is raised inside the `try`
block and caught by `except Exception`.  Evaluated at the failing input:
DELETE /news/1 twice, starting from a store holding the single item 1. -/
theorem C2_delete_twice_evaluation :
    (delete_news ⟨[⟨1, .jstr "t", .jstr "c"⟩], 2⟩ 1 true none).1
      = ⟨200, .json (.jobj [("status", .jstr "deleted"), ("id", .jnum 1)])⟩ ∧
    (delete_news ⟨[⟨1, .jstr "t", .jstr "c"⟩], 2⟩ 1 true none).2.rows = [] ∧
    (delete_news (delete_news ⟨[⟨1, .jstr "t", .jstr "c"⟩], 2⟩ 1 true none).2
        1 true none).1.status = 500 ∧
    (delete_news (delete_news ⟨[⟨1, .jstr "t", .jstr "c"⟩], 2⟩ 1 true none).2
        1 true none).1.body
      = .json (.jobj [("error", .jstr notFoundMessage)]) :=
  ⟨rfl, rfl, rfl, rfl⟩

/-- C3 counterexample: a PUT whose body is the empty JSON object is answered
400, because `if not request.json` treats the empty dict as falsy.  The
claim says the empty object is accepted and does not yield 400. -/
theorem C3_empty_object_counterexample :
    (update_news ⟨[⟨1, .jstr "t", .jstr "c"⟩], 2⟩ 1 (some []) true none).1.status = 400 :=
  rfl

/-- C3 (amended): PUT /news/id returns 400 exactly when the JSON body is
absent or is the empty JSON object: the falsy-body check rejects the empty
object along with a missing body. -/
theorem C3_put_400_iff_missing_or_empty_body (db : DB) (item_id : Nat)
    (body : Option Jobj) (connOk : Bool) (fault : Fault) :
    (update_news db item_id body connOk fault).1.status = 400 ↔
      body = none ∨ body = some [] := by
  rcases body with _ | (_ | ⟨kv, rest⟩)
  · simp [update_news, badRequestResp]
  · simp [update_news, badRequestResp]
  · simp only [update_news, List.isEmpty_cons, Bool.false_eq_true, if_false]
    constructor
    · intro h
      exfalso
      revert h
      split
      · simp [connectionFailedResp]
      · split
        · simp [errResp]
        · split
          · simp [errResp]
          · split
            · simp [errResp]
            · split
              · simp [errResp]
              · simp
    · rintro (h | h) <;> simp at h

/-- C4 counterexample: the retry loop catches only
`psycopg2.OperationalError`; when `psycopg2.connect` raises an exception of
any other class — here a ProgrammingError on the first attempt — it escapes
to the caller, contrary to the claim that no exception escapes regardless of
which error the underlying connect raises. -/
theorem C4_other_error_escapes :
    (get_db_connection (fun _ => .otherError "ProgrammingError")).1
      = .raised "ProgrammingError" :=
  rfl

/-- Helper for C4: while no attempt raises anything but an OperationalError,
the loop ends in a connection or the None signal, sleeping at most once per
remaining retry. -/
theorem connectLoop_no_otherError (attempt : Nat → AttemptOutcome)
    (h : ∀ i msg, attempt i ≠ .otherError msg) :
    ∀ r i s, ((connectLoop attempt r i s).1 = .conn ∨
              (connectLoop attempt r i s).1 = .noneSig) ∧
      (connectLoop attempt r i s).2 ≤ s + r := by
  intro r
  induction r with
  | zero =>
    intro i s
    exact ⟨Or.inr rfl, Nat.le_add_right s 0⟩
  | succ n ih =>
    intro i s
    cases ha : attempt i with
    | ok =>
      simp only [connectLoop, ha]
      exact ⟨Or.inl trivial, Nat.le_add_right s (n + 1)⟩
    | opError =>
      simp only [connectLoop, ha]
      refine ⟨(ih (i + 1) (s + 1)).1, ?_⟩
      have := (ih (i + 1) (s + 1)).2
      omega
    | otherError m =>
      exact absurd ha (h i m)

/-- C4 (amended): connection acquisition attempts to connect up to 5 times
with a `time.sleep(5)` after each failed attempt; when every failure the
underlying connect raises is an OperationalError (store unreachable), it
returns a usable connection handle or the None signal after exhausting the
retries, sleeping at most 5 times, and no exception escapes.  An exception
of any other class raised by the underlying connect escapes to the caller. -/
theorem C4_retry_contract (attempt : Nat → AttemptOutcome)
    (h : ∀ i msg, attempt i ≠ AttemptOutcome.otherError msg) :
    ((get_db_connection attempt).1 = ConnOutcome.conn ∨
     (get_db_connection attempt).1 = ConnOutcome.noneSig) ∧
    (get_db_connection attempt).2 ≤ 5 :=
  connectLoop_no_otherError attempt h 5 0 0

/-- C4 witness: five unreachable attempts in a row end in the None signal
(in particular in one of the two permitted outcomes) with at most 5 sleeps. -/
theorem C4_retry_contract_witness :
    ((get_db_connection (fun _ => AttemptOutcome.opError)).1 = ConnOutcome.conn ∨
     (get_db_connection (fun _ => AttemptOutcome.opError)).1 = ConnOutcome.noneSig) ∧
    (get_db_connection (fun _ => AttemptOutcome.opError)).2 ≤ 5 :=
  C4_retry_contract (fun _ => AttemptOutcome.opError)
    (fun _ _ hc => AttemptOutcome.noConfusion hc)

/-- Whether a POST body fails the `not request.json or 'title' not in
request.json` check: the body is absent, or (being falsy or not) carries no
"title" key. -/
def lacksTitle : Option Jobj → Bool
  | none => true
  | some obj => (jlookup "title" obj).isNone

/-- C5: POST /news answers 400 whenever the JSON body is absent or lacks the
key "title"; otherwise, with a reachable, non-faulting backend, it answers
201 with the created item as body, the item is appended with the sequence's
next id, and a body without "content" yields the empty string as content
(the `.get('content', "")` default). -/
theorem C5_create_contract :
    (∀ (db : DB) (body : Option Jobj) (connOk : Bool) (fault : Fault),
      lacksTitle body = true → (create_news db body connOk fault).1.status = 400) ∧
    (∀ (db : DB) (obj : Jobj) (title : Jval), jlookup "title" obj = some title →
      create_news db (some obj) true none
        = (⟨201, .json (rowJson ⟨db.nextId, title, (jlookup "content" obj).getD (.jstr "")⟩)⟩,
           ⟨db.rows ++ [⟨db.nextId, title, (jlookup "content" obj).getD (.jstr "")⟩],
            db.nextId + 1⟩)) := by
  constructor
  · intro db body connOk fault h
    rcases body with _ | (_ | ⟨kv, rest⟩)
    · rfl
    · rfl
    · simp only [lacksTitle, Option.isNone_iff_eq_none] at h
      simp [create_news, h, badRequestResp]
  · intro db obj title h
    rcases obj with _ | ⟨kv, rest⟩
    · simp [jlookup] at h
    · simp [create_news, h, faultsAt]

/-- C5 witness: a POST with no body is answered 400, and a POST whose body
holds only the title "Hello" creates the item with id 1 and empty content on
an empty store. -/
theorem C5_create_contract_witness :
    (create_news ⟨[], 1⟩ none true none).1.status = 400 ∧
    create_news ⟨[], 1⟩ (some [("title", .jstr "Hello")]) true none
      = (⟨201, .json (rowJson ⟨1, .jstr "Hello", .jstr ""⟩)⟩,
         ⟨[⟨1, .jstr "Hello", .jstr ""⟩], 2⟩) :=
  ⟨C5_create_contract.1 ⟨[], 1⟩ none true none rfl,
   C5_create_contract.2 ⟨[], 1⟩ [("title", .jstr "Hello")] (.jstr "Hello") rfl⟩

/-- C6: with a reachable, non-faulting backend, GET /news answers 200 with a
body holding `count` and `items`, leaves the store unchanged, and the items
are exactly the stored rows (a permutation of them) in ascending order of
id, with `count` the length of that very list. -/
theorem C6_list_contract (db : DB) :
    list_news db true none
      = (⟨200, .json (.jobj [("count", .jnum (sortById db.rows).length),
                             ("items", .jarr ((sortById db.rows).map rowJson))])⟩, db) ∧
    (sortById db.rows).Sorted rowLe ∧
    List.Perm (sortById db.rows) db.rows :=
  ⟨rfl, List.sorted_insertionSort rowLe db.rows, List.perm_insertionSort rowLe db.rows⟩

/-- C7: a successful PUT on an existing item (reachable non-faulting
backend, non-empty body) changes only the fields present in
the body: the stored row keeps its id, a field absent from the body keeps
its previous value (the `.get(field, old)` default), and every row's id is
unchanged by the update. -/
theorem C7_partial_update (db : DB) (item_id : Nat) (obj : Jobj) (row : Row)
    (hne : obj ≠ [])
    (hfind : db.rows.find? (fun r => r.id == item_id) = some row) :
    update_news db item_id (some obj) true none
      = (⟨200, .json (.jobj [("id", .jnum item_id),
            ("title", (jlookup "title" obj).getD row.title),
            ("content", (jlookup "content" obj).getD row.content)])⟩,
         ⟨db.rows.map (fun r => if r.id = item_id then
             ⟨r.id, (jlookup "title" obj).getD row.title,
                    (jlookup "content" obj).getD row.content⟩ else r), db.nextId⟩) ∧
    (jlookup "title" obj = none →
      (jlookup "title" obj).getD row.title = row.title) ∧
    (jlookup "content" obj = none →
      (jlookup "content" obj).getD row.content = row.content) ∧
    (update_news db item_id (some obj) true none).2.rows.map Row.id
      = db.rows.map Row.id := by
  rcases obj with _ | ⟨kv, rest⟩
  · exact absurd rfl hne
  · have heq : update_news db item_id (some (kv :: rest)) true none
        = (⟨200, .json (.jobj [("id", .jnum item_id),
              ("title", (jlookup "title" (kv :: rest)).getD row.title),
              ("content", (jlookup "content" (kv :: rest)).getD row.content)])⟩,
           ⟨db.rows.map (fun r => if r.id = item_id then
               ⟨r.id, (jlookup "title" (kv :: rest)).getD row.title,
                      (jlookup "content" (kv :: rest)).getD row.content⟩ else r),
            db.nextId⟩) := by
      simp [update_news, hfind, faultsAt]
    refine ⟨heq, fun h => by simp [h], fun h => by simp [h], ?_⟩
    rw [heq]
    simp only [List.map_map]
    apply List.map_congr_left
    intro r _
    simp only [Function.comp_apply]
    split <;> rfl

/-- C7 witness: updating item 1 of a one-item store with a body carrying
only "content" leaves the title unchanged and the id in place. -/
theorem C7_partial_update_witness :
    update_news ⟨[⟨1, .jstr "T", .jstr "C"⟩], 2⟩ 1 (some [("content", .jstr "x")]) true none
      = (⟨200, .json (.jobj [("id", .jnum 1), ("title", .jstr "T"),
                             ("content", .jstr "x")])⟩,
         ⟨[⟨1, .jstr "T", .jstr "x"⟩], 2⟩) ∧
    (update_news ⟨[⟨1, .jstr "T", .jstr "C"⟩], 2⟩ 1 (some [("content", .jstr "x")]) true
        none).2.rows.map Row.id = [1] := by
  have h := C7_partial_update ⟨[⟨1, .jstr "T", .jstr "C"⟩], 2⟩ 1
    [("content", .jstr "x")] ⟨1, .jstr "T", .jstr "C"⟩
    (List.cons_ne_nil _ _) rfl
  exact ⟨h.1, h.2.2.2⟩

/-- Helper for C8: a fault injected into POST /news either never fires (the
request runs exactly as without it) or is answered 500 with the exception's
message in an error body, the rows rolled back. -/
theorem create_news_fault (db : DB) (body : Option Jobj) (connOk : Bool)
    (k : Nat) (msg : String) :
    create_news db body connOk (some (k, msg)) = create_news db body connOk none ∨
    ((create_news db body connOk (some (k, msg))).1 = errResp msg ∧
     (create_news db body connOk (some (k, msg))).2.rows = db.rows) := by
  rcases body with _ | (_ | ⟨kv, rest⟩)
  · left; rfl
  · left; rfl
  · cases ht : jlookup "title" (kv :: rest) with
    | none => left; simp [create_news, ht]
    | some title =>
      cases connOk with
      | false => left; simp [create_news, ht]
      | true =>
        rcases k with _ | _ | k
        · right
          constructor <;> simp [create_news, ht, faultsAt, errResp]
        · right
          constructor <;> simp [create_news, ht, faultsAt, errResp]
        · left
          simp [create_news, ht, faultsAt]

/-- Helper for C8: a fault injected into PUT /news/id either never fires or
is answered 500 with the exception's message in an error body, the rows
rolled back. -/
theorem update_news_fault (db : DB) (item_id : Nat) (body : Option Jobj)
    (connOk : Bool) (k : Nat) (msg : String) :
    update_news db item_id body connOk (some (k, msg))
      = update_news db item_id body connOk none ∨
    ((update_news db item_id body connOk (some (k, msg))).1 = errResp msg ∧
     (update_news db item_id body connOk (some (k, msg))).2.rows = db.rows) := by
  rcases body with _ | (_ | ⟨kv, rest⟩)
  · left; rfl
  · left; rfl
  · cases connOk with
    | false => left; rfl
    | true =>
      rcases k with _ | _ | _ | k
      · right
        constructor <;> simp [update_news, faultsAt, errResp]
      · cases hf : db.rows.find? (fun r => r.id == item_id) with
        | none => left; simp [update_news, faultsAt, hf]
        | some row =>
          right
          constructor <;> simp [update_news, faultsAt, hf, errResp]
      · cases hf : db.rows.find? (fun r => r.id == item_id) with
        | none => left; simp [update_news, faultsAt, hf]
        | some row =>
          right
          constructor <;> simp [update_news, faultsAt, hf, errResp]
      · left
        simp [update_news, faultsAt]

/-- Helper for C8: a fault injected into DELETE /news/id either never fires
or is answered 500 with the exception's message in an error body, the rows
rolled back. -/
theorem delete_news_fault (db : DB) (item_id : Nat) (connOk : Bool)
    (k : Nat) (msg : String) :
    delete_news db item_id connOk (some (k, msg))
      = delete_news db item_id connOk none ∨
    ((delete_news db item_id connOk (some (k, msg))).1 = errResp msg ∧
     (delete_news db item_id connOk (some (k, msg))).2.rows = db.rows) := by
  cases connOk with
  | false => left; rfl
  | true =>
    rcases k with _ | _ | k
    · right
      constructor <;> simp [delete_news, faultsAt, errResp]
    · cases ha : db.rows.any (fun r => r.id == item_id) with
      | false => left; simp [delete_news, faultsAt, ha]
      | true =>
        right
        constructor <;> simp [delete_news, faultsAt, ha, errResp]
    · left
      simp [delete_news, faultsAt]

/-- C8: for every create, update or delete request, an injected backend
fault (at any of the handler's backend calls, with any message) either
never fires — the request behaves exactly as the fault-free run — or the
handler catches it, answers 500 with a JSON error body carrying the
exception's message, and the stored collection of rows is unchanged (the
transaction is rolled back); no fault propagates unhandled. -/
theorem C8_fault_rollback (db : DB) (body : Option Jobj) (item_id k : Nat)
    (msg : String) (connOk : Bool) :
    (create_news db body connOk (some (k, msg)) = create_news db body connOk none ∨
      ((create_news db body connOk (some (k, msg))).1 = errResp msg ∧
       (create_news db body connOk (some (k, msg))).2.rows = db.rows)) ∧
    (update_news db item_id body connOk (some (k, msg))
        = update_news db item_id body connOk none ∨
      ((update_news db item_id body connOk (some (k, msg))).1 = errResp msg ∧
       (update_news db item_id body connOk (some (k, msg))).2.rows = db.rows)) ∧
    (delete_news db item_id connOk (some (k, msg))
        = delete_news db item_id connOk none ∨
      ((delete_news db item_id connOk (some (k, msg))).1 = errResp msg ∧
       (delete_news db item_id connOk (some (k, msg))).2.rows = db.rows)) :=
  ⟨create_news_fault db body connOk k msg,
   update_news_fault db item_id body connOk k msg,
   delete_news_fault db item_id connOk k msg⟩

/-- C9 counterexample: the 400 response to a POST with no JSON body is
produced by `abort(400)` with no registered error handler, so it carries
Flask's default HTML error page, not an application/json body. -/
theorem C9_400_not_json_counterexample :
    (create_news ⟨[], 1⟩ none true none).1.isJson = false :=
  rfl

/-- C9 (amended): every response the handlers produce carries a JSON body
except the HTTP 400 responses, which `abort(400)` renders as Flask's
default HTML error page: for the index, health and list routes the
response is always JSON, and for create and update the response is JSON
exactly when its status is not 400. -/
theorem C9_json_iff_not_400 :
    index.isJson = true ∧
    (∀ connOk : Bool, (db_health_check connOk).isJson = true) ∧
    (∀ (db : DB) (connOk : Bool) (fault : Fault),
      (list_news db connOk fault).1.isJson = true) ∧
    (∀ (db : DB) (item_id : Nat) (connOk : Bool) (fault : Fault),
      (delete_news db item_id connOk fault).1.isJson = true) ∧
    (∀ (db : DB) (body : Option Jobj) (connOk : Bool) (fault : Fault),
      (create_news db body connOk fault).1.isJson = true ↔
        (create_news db body connOk fault).1.status ≠ 400) ∧
    (∀ (db : DB) (item_id : Nat) (body : Option Jobj) (connOk : Bool) (fault : Fault),
      (update_news db item_id body connOk fault).1.isJson = true ↔
        (update_news db item_id body connOk fault).1.status ≠ 400) := by
  refine ⟨rfl, ?_, ?_, ?_, ?_, ?_⟩
  · intro connOk
    cases connOk <;> rfl
  · intro db connOk fault
    cases connOk
    · rfl
    · cases hf : faultsAt fault 0 <;> simp [list_news, hf, errResp, Response.isJson]
  · intro db item_id connOk fault
    cases connOk
    · rfl
    · cases hf : faultsAt fault 0 with
      | some msg => simp [delete_news, hf, errResp, Response.isJson]
      | none =>
        cases ha : db.rows.any (fun r => r.id == item_id) with
        | false =>
          simp [delete_news, hf, ha, errResp, notFoundMessage, Response.isJson]
        | true =>
          cases hg : faultsAt fault 1 <;>
            simp [delete_news, hf, ha, hg, errResp, Response.isJson]
  · intro db body connOk fault
    rcases body with _ | (_ | ⟨kv, rest⟩)
    · simp [create_news, badRequestResp, Response.isJson]
    · simp [create_news, badRequestResp, Response.isJson]
    · cases ht : jlookup "title" (kv :: rest) with
      | none => simp [create_news, ht, badRequestResp, Response.isJson]
      | some title =>
        cases connOk
        · simp [create_news, ht, connectionFailedResp, Response.isJson]
        · cases hf : faultsAt fault 0 with
          | some msg => simp [create_news, ht, hf, errResp, Response.isJson]
          | none =>
            cases hg : faultsAt fault 1 <;>
              simp [create_news, ht, hf, hg, errResp, Response.isJson]
  · intro db item_id body connOk fault
    rcases body with _ | (_ | ⟨kv, rest⟩)
    · simp [update_news, badRequestResp, Response.isJson]
    · simp [update_news, badRequestResp, Response.isJson]
    · cases connOk
      · simp [update_news, connectionFailedResp, Response.isJson]
      · cases hf : faultsAt fault 0 with
        | some msg => simp [update_news, hf, errResp, Response.isJson]
        | none =>
          cases hr : db.rows.find? (fun r => r.id == item_id) with
          | none => simp [update_news, hf, hr, errResp, Response.isJson]
          | some row =>
            cases hg : faultsAt fault 1 with
            | some msg => simp [update_news, hf, hr, hg, errResp, Response.isJson]
            | none =>
              cases hh : faultsAt fault 2 <;>
                simp [update_news, hf, hr, hg, hh, errResp, Response.isJson]

/-- C10: a PUT on an existing item whose body maps "title" to JSON null
writes null as the item's new title: `dict.get` returns the stored value
of a present key even when that value is None, so a present-but-null field
overrides the previous value rather than preserving it, and the stored
title becomes null instead of a string. -/
theorem C10_null_overrides (db : DB) (item_id : Nat) (obj : Jobj) (row : Row)
    (hfind : db.rows.find? (fun r => r.id == item_id) = some row)
    (ht : jlookup "title" obj = some Jval.jnull) :
    (update_news db item_id (some obj) true none).1
      = ⟨200, .json (.jobj [("id", .jnum item_id), ("title", Jval.jnull),
          ("content", (jlookup "content" obj).getD row.content)])⟩ ∧
    (update_news db item_id (some obj) true none).2.rows
      = db.rows.map (fun r => if r.id = item_id then
          ⟨r.id, Jval.jnull, (jlookup "content" obj).getD row.content⟩ else r) := by
  rcases obj with _ | ⟨kv, rest⟩
  · simp [jlookup] at ht
  · constructor <;> simp [update_news, hfind, ht, faultsAt]

/-- C10 witness: updating item 1, whose title is the string "Old", with the
body mapping "title" to null stores null as the title. -/
theorem C10_null_overrides_witness :
    (update_news ⟨[⟨1, .jstr "Old", .jstr "C"⟩], 2⟩ 1 (some [("title", Jval.jnull)])
        true none).1
      = ⟨200, .json (.jobj [("id", .jnum 1), ("title", Jval.jnull),
          ("content", .jstr "C")])⟩ ∧
    (update_news ⟨[⟨1, .jstr "Old", .jstr "C"⟩], 2⟩ 1 (some [("title", Jval.jnull)])
        true none).2.rows = [⟨1, Jval.jnull, .jstr "C"⟩] := by
  have h := C10_null_overrides ⟨[⟨1, .jstr "Old", .jstr "C"⟩], 2⟩ 1
    [("title", Jval.jnull)] ⟨1, .jstr "Old", .jstr "C"⟩ rfl rfl
  exact ⟨h.1, h.2⟩
